import Mathlib

/-!
Verification of the cell primitive implemented in `src/brine/cellwork.c`.

The C module exposes three functions over CPython cell objects:

* `cell_get_value(cell)`  — `PyArg_ParseTuple(args, "O!", &PyCell_Type, &cell)`
  followed by `return PyCell_Get(cell)`;
* `cell_set_value(cell, val)` — `PyArg_ParseTuple(args, "O!O", ...)` followed by
  `PyCell_Set(cell, val)` and `Py_RETURN_NONE`;
* `cell_from_value(val)` — `PyArg_ParseTuple(args, "O", &val)` followed by
  `return PyCell_New(val)`.

We embed the interpreter heap of cell objects as a list of slots indexed by
allocation order (the allocation index plays the role of the cell's identity,
i.e. its address).  A slot holds `none` when the cell is Empty (its `ob_ref`
field is NULL) and `some v` when it is Populated with the object reference `v`.
Python object references handed to the module are either references to cell
objects (carrying the identity of the cell) or references to any other object.

The CPython helpers are embedded by their documented semantics:
`PyCell_Get` returns the cell's `ob_ref` (NULL, hence an error return, when the
cell is empty), `PyCell_Set` overwrites `ob_ref`, `PyCell_New(v)` allocates a
fresh populated cell, and `PyArg_ParseTuple` fails with a TypeError when the
argument tuple has the wrong arity or when an `O!` slot receives an object of
the wrong type.
-/

/-- A Python object reference passed to or returned from the module: either a
reference to a cell object, identified by its allocation index, or a reference
to any non-cell object, identified by an opaque reference number.  Reference
number `0` is reserved for the `None` singleton. -/
inductive PyVal where
  | obj  (r : Nat)
  | cell (id : Nat)
deriving DecidableEq, Repr

/-- The `None` singleton, returned by `cell_set_value` via `Py_RETURN_NONE`. -/
def pyNone : PyVal := PyVal.obj 0

/-- Distinct failure modes of the three C functions, as observed by a Python
caller.  `WrongArgumentType` is the TypeError raised by `PyArg_ParseTuple`
when an `O!` slot receives a non-cell; `WrongArity` is the TypeError it raises
when the argument tuple has the wrong length; `UnboundCellError` is the error
return produced when `PyCell_Get` is applied to an empty cell (its `ob_ref` is
NULL, so `cell_get_value` returns NULL and the call fails). -/
inductive CellError where
  | WrongArgumentType
  | WrongArity
  | UnboundCellError
deriving DecidableEq, Repr

/-- The heap of cell objects: slot `id` belongs to the cell allocated as the
`id`-th cell; `none` means the cell is Empty (NULL `ob_ref`), `some v` means it
is Populated with the reference `v`. -/
structure Store where
  cells : List (Option PyVal)
deriving DecidableEq, Repr

/-- Content slot of cell `id` (the cell's `ob_ref` field). -/
def Store.slot (s : Store) (id : Nat) : Option PyVal :=
  s.cells.getD id none

/-- A value is valid in a store when, if it is a cell reference, that cell is
allocated there; real executions only ever hand the module such references. -/
def Store.valid (s : Store) : PyVal → Bool
  | PyVal.cell id => decide (id < s.cells.length)
  | PyVal.obj _ => true

/-- Embedding of `cell_get_value` (src/brine/cellwork.c lines 29-36): parse the
argument tuple, requiring exactly one argument of cell type, then return the
cell's content via `PyCell_Get`; an empty cell yields an error return.  The
function never writes to the heap, so the result store is the input store. -/
def cell_get_value (s : Store) (args : List PyVal) :
    Except CellError PyVal × Store :=
  match args with
  | [PyVal.cell id] =>
    match s.slot id with
    | none => (Except.error CellError.UnboundCellError, s)
    | some v => (Except.ok v, s)
  | [PyVal.obj _] => (Except.error CellError.WrongArgumentType, s)
  | _ => (Except.error CellError.WrongArity, s)

/-- Embedding of `cell_set_value` (src/brine/cellwork.c lines 42-52): parse the
argument tuple, requiring a cell and a value, then overwrite the cell's content
via `PyCell_Set` and return `None`. -/
def cell_set_value (s : Store) (args : List PyVal) :
    Except CellError PyVal × Store :=
  match args with
  | [PyVal.cell id, v] =>
    (Except.ok pyNone, { cells := s.cells.set id (some v) })
  | [PyVal.obj _, _] => (Except.error CellError.WrongArgumentType, s)
  | _ => (Except.error CellError.WrongArity, s)

/-- Embedding of `cell_from_value` (src/brine/cellwork.c lines 55-62): parse
the argument tuple, requiring exactly one argument of any type, then allocate
a fresh cell populated with it via `PyCell_New`. -/
def cell_from_value (s : Store) (args : List PyVal) :
    Except CellError PyVal × Store :=
  match args with
  | [v] => (Except.ok (PyVal.cell s.cells.length), { cells := s.cells ++ [some v] })
  | _ => (Except.error CellError.WrongArity, s)

/-- Cell `id` is allocated and currently Populated in store `s`. -/
def Store.Populated (s : Store) (id : Nat) : Prop :=
  ∃ v, s.cells[id]? = some (some v)

/-- Reading never writes: every branch of `cell_get_value` hands back the input
heap unchanged, mirroring the C function, which contains no store operation. -/
theorem cell_get_value_snd (s : Store) (args : List PyVal) :
    (cell_get_value s args).2 = s := by
  unfold cell_get_value
  split
  · split <;> rfl
  · rfl
  · rfl

/-- Setting an allocated cell installs the new value in its slot. -/
theorem slot_after_set (s : Store) (id : Nat) (v : PyVal)
    (h : id < s.cells.length) :
    (cell_set_value s [PyVal.cell id, v]).2.slot id = some v := by
  simp [cell_set_value, Store.slot, List.getElem?_set_eq_of_lt _ h]

/-- Getting a cell whose slot holds `v` returns exactly `v`. -/
theorem cell_get_value_of_slot (s : Store) (id : Nat) (v : PyVal)
    (h : s.slot id = some v) :
    (cell_get_value s [PyVal.cell id]).1 = Except.ok v := by
  simp [cell_get_value, h]

/-- Setting a cell preserves the number of allocated cells. -/
theorem length_after_set (s : Store) (id : Nat) (v : PyVal) :
    (cell_set_value s [PyVal.cell id, v]).2.cells.length = s.cells.length := by
  simp [cell_set_value]

/-- Claim C1: for every cell, `get` returns exactly the reference last
installed into that cell by `create` or `set`, with no copying and no
coercion; in particular `create(v)` followed by `get` returns the identical
value `v`. -/
theorem get_returns_last_installed (s : Store) (id : Nat) (v w : PyVal)
    (h : id < s.cells.length) :
    (cell_get_value (cell_set_value s [PyVal.cell id, v]).2 [PyVal.cell id]).1
      = Except.ok v
    ∧ (cell_from_value s [w]).1 = Except.ok (PyVal.cell s.cells.length)
    ∧ (cell_get_value (cell_from_value s [w]).2
        [PyVal.cell s.cells.length]).1 = Except.ok w := by
  refine ⟨?_, rfl, ?_⟩
  · exact cell_get_value_of_slot _ _ _ (slot_after_set s id v h)
  · refine cell_get_value_of_slot _ _ _ ?_
    simp [cell_from_value, Store.slot, List.getElem?_concat_length]

/-- Witness for C1 at the one-cell store holding an empty cell. -/
theorem get_returns_last_installed_witness :
    0 < (Store.mk [none]).cells.length
    ∧ ((cell_get_value (cell_set_value (Store.mk [none])
          [PyVal.cell 0, PyVal.obj 3]).2 [PyVal.cell 0]).1
        = Except.ok (PyVal.obj 3)
      ∧ (cell_from_value (Store.mk [none]) [PyVal.obj 4]).1
        = Except.ok (PyVal.cell (Store.mk [none]).cells.length)
      ∧ (cell_get_value (cell_from_value (Store.mk [none]) [PyVal.obj 4]).2
          [PyVal.cell (Store.mk [none]).cells.length]).1
        = Except.ok (PyVal.obj 4)) :=
  ⟨by decide,
   get_returns_last_installed (Store.mk [none]) 0 (PyVal.obj 3) (PyVal.obj 4)
     (by decide)⟩

/-- Claim C2, counterexample: invoking `cell_from_value` with an empty
argument tuple does not succeed; `PyArg_ParseTuple(args, "O", ...)` demands
exactly one argument and raises a TypeError, so no Empty cell is created. -/
theorem create_no_args_counterexample :
    cell_from_value (Store.mk []) []
      = (Except.error CellError.WrongArity, Store.mk []) := rfl

/-- Claim C2 as amended: `create` invoked with no argument fails with the
arity error from argument parsing and allocates nothing; the module offers no
way to create an Empty cell. -/
theorem create_no_args_requires_value (s : Store) :
    cell_from_value s [] = (Except.error CellError.WrongArity, s) := rfl

/-- Claim C3: for every cell in the Empty state, `get` on that cell fails
with the error kind `UnboundCellError` (and with no other error kind) and
leaves the cell store unchanged. -/
theorem get_empty_cell_unbound (s : Store) (id : Nat)
    (h : s.cells[id]? = some none) :
    cell_get_value s [PyVal.cell id]
      = (Except.error CellError.UnboundCellError, s) := by
  simp [cell_get_value, Store.slot, h]

/-- Witness for C3 at a one-cell store whose only cell is Empty. -/
theorem get_empty_cell_unbound_witness :
    (Store.mk [none]).cells[0]? = some none
    ∧ cell_get_value (Store.mk [none]) [PyVal.cell 0]
      = (Except.error CellError.UnboundCellError, Store.mk [none]) :=
  ⟨by decide, get_empty_cell_unbound (Store.mk [none]) 0 (by decide)⟩

/-- Claim C4: for every argument that is not a Cell, invoking `get` or `set`
with that argument in the cell position fails with `WrongArgumentType` and
the whole cell store is unchanged. -/
theorem non_cell_argument_wrong_type (s : Store) (r : Nat) (v : PyVal) :
    cell_get_value s [PyVal.obj r]
      = (Except.error CellError.WrongArgumentType, s)
    ∧ cell_set_value s [PyVal.obj r, v]
      = (Except.error CellError.WrongArgumentType, s) :=
  ⟨rfl, rfl⟩

/-- Claim C5: aliasing — two references that denote the same cell are, in the
embedding, references carrying the same allocation identity, so a `set`
through one makes a subsequent `get` through the other return the new
value. -/
theorem set_visible_through_alias (s : Store) (id : Nat) (v : PyVal)
    (h : id < s.cells.length) :
    (cell_get_value (cell_set_value s [PyVal.cell id, v]).2 [PyVal.cell id]).1
      = Except.ok v :=
  cell_get_value_of_slot _ _ _ (slot_after_set s id v h)

/-- Witness for C5. -/
theorem set_visible_through_alias_witness :
    1 < (Store.mk [none, some pyNone]).cells.length
    ∧ (cell_get_value (cell_set_value (Store.mk [none, some pyNone])
          [PyVal.cell 1, PyVal.obj 9]).2 [PyVal.cell 1]).1
        = Except.ok (PyVal.obj 9) :=
  ⟨by decide,
   set_visible_through_alias (Store.mk [none, some pyNone]) 1 (PyVal.obj 9)
     (by decide)⟩

/-- Populated cells stay populated across `cell_set_value`, whatever the
argument tuple. -/
theorem populated_after_set (t : Store) (args : List PyVal) (j : Nat)
    (hp : t.Populated j) : (cell_set_value t args).2.Populated j := by
  obtain ⟨w, hw⟩ := hp
  have hj : j < t.cells.length := (List.getElem?_eq_some_iff.mp hw).1
  unfold cell_set_value
  split
  · next id2 v2 =>
    by_cases hid : id2 = j
    · subst hid
      exact ⟨v2, by simp [List.getElem?_set_eq_of_lt _ hj]⟩
    · exact ⟨w, by simp [List.getElem?_set_ne hid, hw]⟩
  · exact ⟨w, hw⟩
  · exact ⟨w, hw⟩

/-- Populated cells stay populated across `cell_from_value`, whatever the
argument tuple. -/
theorem populated_after_create (t : Store) (args : List PyVal) (j : Nat)
    (hp : t.Populated j) : (cell_from_value t args).2.Populated j := by
  obtain ⟨w, hw⟩ := hp
  have hj : j < t.cells.length := (List.getElem?_eq_some_iff.mp hw).1
  unfold cell_from_value
  split
  · exact ⟨w, by rw [List.getElem?_append_left hj]; exact hw⟩
  · exact ⟨w, hw⟩

/-- Claim C6: last write wins — `set(v1)` then `set(v2)` then `get` returns
`v2`, and the heap after the two writes equals the heap after writing `v2`
alone, so no trace of `v1` is retained. -/
theorem last_write_wins (s : Store) (id : Nat) (v1 v2 : PyVal)
    (h : id < s.cells.length) :
    (cell_get_value (cell_set_value (cell_set_value s [PyVal.cell id, v1]).2
        [PyVal.cell id, v2]).2 [PyVal.cell id]).1 = Except.ok v2
    ∧ (cell_set_value (cell_set_value s [PyVal.cell id, v1]).2
        [PyVal.cell id, v2]).2 = (cell_set_value s [PyVal.cell id, v2]).2 := by
  constructor
  · refine cell_get_value_of_slot _ _ _ ?_
    refine slot_after_set _ id v2 ?_
    rw [length_after_set]
    exact h
  · simp [cell_set_value, List.set_set]

/-- Witness for C6. -/
theorem last_write_wins_witness :
    0 < (Store.mk [none]).cells.length
    ∧ ((cell_get_value (cell_set_value (cell_set_value (Store.mk [none])
          [PyVal.cell 0, PyVal.obj 5]).2 [PyVal.cell 0, PyVal.obj 6]).2
          [PyVal.cell 0]).1 = Except.ok (PyVal.obj 6)
      ∧ (cell_set_value (cell_set_value (Store.mk [none])
          [PyVal.cell 0, PyVal.obj 5]).2 [PyVal.cell 0, PyVal.obj 6]).2
        = (cell_set_value (Store.mk [none]) [PyVal.cell 0, PyVal.obj 6]).2) :=
  ⟨by decide,
   last_write_wins (Store.mk [none]) 0 (PyVal.obj 5) (PyVal.obj 6) (by decide)⟩

/-- Claim C7: every successful `set` on an allocated cell leaves it Populated
with the written value, and none of the three operations ever takes a cell
from Populated back to Empty. -/
theorem set_populates_never_empties (s : Store) (id : Nat) (v : PyVal)
    (h : id < s.cells.length) :
    (cell_set_value s [PyVal.cell id, v]).2.cells[id]? = some (some v)
    ∧ ∀ (t : Store) (args : List PyVal) (j : Nat), t.Populated j →
        (cell_get_value t args).2.Populated j
        ∧ (cell_set_value t args).2.Populated j
        ∧ (cell_from_value t args).2.Populated j := by
  constructor
  · simp [cell_set_value, List.getElem?_set_eq_of_lt _ h]
  · intro t args j hp
    refine ⟨?_, populated_after_set t args j hp,
      populated_after_create t args j hp⟩
    rw [cell_get_value_snd]
    exact hp

/-- Witness for C7. -/
theorem set_populates_never_empties_witness :
    0 < (Store.mk [none]).cells.length
    ∧ ((cell_set_value (Store.mk [none])
          [PyVal.cell 0, PyVal.obj 3]).2.cells[0]? = some (some (PyVal.obj 3))
      ∧ ∀ (t : Store) (args : List PyVal) (j : Nat), t.Populated j →
          (cell_get_value t args).2.Populated j
          ∧ (cell_set_value t args).2.Populated j
          ∧ (cell_from_value t args).2.Populated j) :=
  ⟨by decide,
   set_populates_never_empties (Store.mk [none]) 0 (PyVal.obj 3) (by decide)⟩

/-- Claim C8: `get` has no side effects — it returns the heap unchanged for
every argument tuple, so two consecutive gets agree in result and heap. -/
theorem get_is_pure (s : Store) (args : List PyVal) :
    (cell_get_value s args).2 = s
    ∧ cell_get_value (cell_get_value s args).2 args = cell_get_value s args := by
  refine ⟨cell_get_value_snd s args, ?_⟩
  rw [cell_get_value_snd]

/-- Claim C9: frame property of `set` — writing `v` into cell `id` leaves the
slot of every other cell `j` exactly as it was, and allocates nothing. -/
theorem set_frame_property (s : Store) (id : Nat) (v : PyVal) (j : Nat)
    (hj : j ≠ id) :
    (cell_set_value s [PyVal.cell id, v]).2.cells[j]? = s.cells[j]?
    ∧ (cell_set_value s [PyVal.cell id, v]).2.cells.length
      = s.cells.length := by
  constructor
  · simp [cell_set_value, List.getElem?_set_ne (Ne.symm hj)]
  · exact length_after_set s id v

/-- Witness for C9. -/
theorem set_frame_property_witness :
    (1 : Nat) ≠ 0
    ∧ ((cell_set_value (Store.mk [some pyNone, none])
          [PyVal.cell 0, PyVal.obj 8]).2.cells[1]?
        = (Store.mk [some pyNone, none]).cells[1]?
      ∧ (cell_set_value (Store.mk [some pyNone, none])
          [PyVal.cell 0, PyVal.obj 8]).2.cells.length
        = (Store.mk [some pyNone, none]).cells.length) :=
  ⟨by decide,
   set_frame_property (Store.mk [some pyNone, none]) 0 (PyVal.obj 8) 1
     (by decide)⟩

/-- Claim C10: `create` applied to exactly one argument succeeds for every
value (with no type restriction, including `None` or another cell), returns a
freshly allocated cell Populated with exactly that argument, and the new cell
is distinct by identity from its argument and from every previously existing
cell. -/
theorem create_fresh_populated (s : Store) (v : PyVal)
    (hv : s.valid v = true) :
    (cell_from_value s [v]).1 = Except.ok (PyVal.cell s.cells.length)
    ∧ (cell_from_value s [v]).2.cells[s.cells.length]? = some (some v)
    ∧ PyVal.cell s.cells.length ≠ v
    ∧ ∀ id, id < s.cells.length →
        PyVal.cell s.cells.length ≠ PyVal.cell id := by
  refine ⟨rfl, ?_, ?_, ?_⟩
  · simp [cell_from_value, List.getElem?_concat_length]
  · intro hEq
    cases v with
    | obj r => simp at hEq
    | cell id =>
      simp [Store.valid] at hv
      injection hEq with h2
      omega
  · intro id hid hEq
    injection hEq with h2
    omega

/-- Witness for C10 at a store holding one populated cell, creating a new
cell whose initial value is a reference to the existing cell. -/
theorem create_fresh_populated_witness :
    (Store.mk [some pyNone]).valid (PyVal.cell 0) = true
    ∧ ((cell_from_value (Store.mk [some pyNone]) [PyVal.cell 0]).1
        = Except.ok (PyVal.cell (Store.mk [some pyNone]).cells.length)
      ∧ (cell_from_value (Store.mk [some pyNone])
          [PyVal.cell 0]).2.cells[(Store.mk [some pyNone]).cells.length]?
        = some (some (PyVal.cell 0))
      ∧ PyVal.cell (Store.mk [some pyNone]).cells.length ≠ PyVal.cell 0
      ∧ ∀ id, id < (Store.mk [some pyNone]).cells.length →
          PyVal.cell (Store.mk [some pyNone]).cells.length
            ≠ PyVal.cell id) :=
  ⟨by decide,
   create_fresh_populated (Store.mk [some pyNone]) (PyVal.cell 0) (by decide)⟩
